import Mathlib

/-!
Shallow embedding of the B2B shipping estimator core (Python sources under
`src/`): distance calculation, transport strategies and their factory,
warehouse selection, and the shipping charge service.  Numeric values are
modelled as real numbers; Python `round(x, 2)` (round-half-to-even to two
decimal places) is modelled by `round2`.
-/

open Real

/-- Python `round` to the nearest integer, rounding halves to even
(banker rounding), on real numbers. -/
noncomputable def roundHalfEven (x : ℝ) : ℤ :=
  if Int.fract x < 1 / 2 then ⌊x⌋
  else if 1 / 2 < Int.fract x then ⌊x⌋ + 1
  else if ⌊x⌋ % 2 = 0 then ⌊x⌋ else ⌊x⌋ + 1

/-- Python `round(x, 2)`: round-half-to-even at two decimal places. -/
noncomputable def round2 (x : ℝ) : ℝ :=
  (roundHalfEven (100 * x) : ℝ) / 100

theorem roundHalfEven_intCast (n : ℤ) : roundHalfEven (n : ℝ) = n := by
  unfold roundHalfEven
  rw [Int.fract_intCast, Int.floor_intCast]
  norm_num

theorem roundHalfEven_int_add (n : ℤ) (x : ℝ) (hn : n % 2 = 0) :
    roundHalfEven ((n : ℝ) + x) = n + roundHalfEven x := by
  unfold roundHalfEven
  rw [Int.fract_int_add, Int.floor_int_add]
  have hpar : (n + ⌊x⌋) % 2 = ⌊x⌋ % 2 := by omega
  split_ifs with h1 h2 h3 h4 h5 <;> omega

theorem roundHalfEven_nonneg (x : ℝ) (hx : 0 ≤ x) : 0 ≤ roundHalfEven x := by
  have hf : (0 : ℤ) ≤ ⌊x⌋ := Int.floor_nonneg.mpr hx
  unfold roundHalfEven
  split_ifs <;> omega

theorem roundHalfEven_mono {x y : ℝ} (hxy : x ≤ y) :
    roundHalfEven x ≤ roundHalfEven y := by
  have hf : ⌊x⌋ ≤ ⌊y⌋ := Int.floor_le_floor hxy
  rcases lt_or_eq_of_le hf with hlt | heq
  · have h1 : roundHalfEven x ≤ ⌊x⌋ + 1 := by
      unfold roundHalfEven; split_ifs <;> omega
    have h2 : ⌊y⌋ ≤ roundHalfEven y := by
      unfold roundHalfEven; split_ifs <;> omega
    omega
  · have hfr : Int.fract x ≤ Int.fract y := by
      unfold Int.fract
      rw [heq]
      linarith
    unfold roundHalfEven
    rw [heq]
    split_ifs <;> first | omega | linarith

/-- The map `round2` fixes every real that is an integer multiple of `1/100`. -/
theorem round2_int_div (n : ℤ) : round2 ((n : ℝ) / 100) = (n : ℝ) / 100 := by
  unfold round2
  rw [show (100 : ℝ) * ((n : ℝ) / 100) = (n : ℝ) by ring, roundHalfEven_intCast]

theorem round2_zero : round2 0 = 0 := by
  have h := round2_int_div 0
  simpa using h

theorem round2_eq_div (x : ℝ) : round2 x = (roundHalfEven (100 * x) : ℝ) / 100 :=
  rfl

/-- Shifting by `10` commutes with `round2` (because `1000` is even, the
half-to-even tie break is unaffected). -/
theorem round2_ten_add (x : ℝ) : round2 (10 + x) = 10 + round2 x := by
  unfold round2
  rw [show (100 : ℝ) * (10 + x) = ((1000 : ℤ) : ℝ) + 100 * x by push_cast; ring,
    roundHalfEven_int_add 1000 (100 * x) (by norm_num)]
  push_cast
  ring

theorem round2_nonneg (x : ℝ) (hx : 0 ≤ x) : 0 ≤ round2 x := by
  unfold round2
  have h := roundHalfEven_nonneg (100 * x) (by linarith)
  positivity

theorem round2_mono {x y : ℝ} (hxy : x ≤ y) : round2 x ≤ round2 y := by
  unfold round2
  have h := roundHalfEven_mono (show 100 * x ≤ 100 * y by linarith)
  have : (roundHalfEven (100 * x) : ℝ) ≤ (roundHalfEven (100 * y) : ℝ) := by
    exact_mod_cast h
  linarith

/-- From `src/entities/location.py`: geographic coordinate (`lat`, `lng`). -/
structure Location where
  lat : ℝ
  lng : ℝ

/-- The `__post_init__` validation of `Location`: latitude in `[-90, 90]`,
longitude in `[-180, 180]`. -/
def Location.valid (l : Location) : Prop :=
  -90 ≤ l.lat ∧ l.lat ≤ 90 ∧ -180 ≤ l.lng ∧ l.lng ≤ 180

namespace DistanceCalculator

/-- Embedding of `math.radians`: degrees to radians. -/
noncomputable def radians (deg : ℝ) : ℝ := deg * Real.pi / 180

/-- Embedding of `math.atan2 y x` (signed zeros are not modelled; `atan2 0 0 = 0` as in
Python for positive zeros). -/
noncomputable def atan2 (y x : ℝ) : ℝ :=
  if 0 < x then Real.arctan (y / x)
  else if x < 0 then
    (if 0 ≤ y then Real.arctan (y / x) + Real.pi
     else Real.arctan (y / x) - Real.pi)
  else
    (if 0 < y then Real.pi / 2 else if y < 0 then -(Real.pi / 2) else 0)

/-- Earth radius constant from `src/services/distance_calculator.py`. -/
def EARTH_RADIUS_KM : ℝ := 6371.0

/-- Embedding of `DistanceCalculator.calculate`: Haversine distance in km, rounded to two
decimal places. -/
noncomputable def calculate (location1 location2 : Location) : ℝ :=
  let lat1 := radians location1.lat
  let lat2 := radians location2.lat
  let lon1 := radians location1.lng
  let lon2 := radians location2.lng
  let dlat := lat2 - lat1
  let dlon := lon2 - lon1
  let a := Real.sin (dlat / 2) ^ 2 +
    Real.cos lat1 * Real.cos lat2 * Real.sin (dlon / 2) ^ 2
  let c := 2 * atan2 (Real.sqrt a) (Real.sqrt (1 - a))
  let distance := EARTH_RADIUS_KM * c
  round2 distance

theorem atan2_zero_one : atan2 0 1 = 0 := by
  unfold atan2
  rw [if_pos (by norm_num : (0 : ℝ) < 1)]
  simp [Real.arctan_zero]

theorem calculate_self (l : Location) : calculate l l = 0 := by
  unfold calculate
  simp only [sub_self, zero_div, Real.sin_zero, ne_eq, OfNat.ofNat_ne_zero,
    not_false_eq_true, zero_pow, mul_zero, add_zero, Real.sqrt_zero, sub_zero,
    Real.sqrt_one]
  rw [atan2_zero_one]
  rw [mul_zero, mul_zero, round2_zero]

theorem sin_half_sub_sq (x y : ℝ) :
    Real.sin ((x - y) / 2) ^ 2 = Real.sin ((y - x) / 2) ^ 2 := by
  rw [show (x - y) / 2 = -((y - x) / 2) by ring, Real.sin_neg]
  ring

theorem calculate_symm (l1 l2 : Location) : calculate l1 l2 = calculate l2 l1 := by
  unfold calculate
  simp only []
  rw [sin_half_sub_sq (radians l2.lat) (radians l1.lat),
    sin_half_sub_sq (radians l2.lng) (radians l1.lng),
    mul_comm (Real.cos (radians l1.lat)) (Real.cos (radians l2.lat))]

end DistanceCalculator

/-- Error taxonomy of `src/core/exceptions.py` plus Python built-in errors
raised by the core (`ValueError` in the strategy factory). -/
inductive PyError where
  | notFoundError (message : String)
  | validationError (message : String)
  | valueError (message : String)
deriving DecidableEq, Repr

/-- From `src/strategies/base.py`: a shipping strategy is determined by its
distance interval, rate, and mode name.  `max_distance = none` models
Python `math.inf` (used by `AeroplaneStrategy`). -/
structure ShippingStrategy where
  min_distance : ℝ
  max_distance : Option ℝ
  rate_per_km_per_kg : ℝ
  mode_name : String

/-- Embedding of `ShippingStrategy.is_applicable`: `min_distance <= d < max_distance`
(a comparison with `math.inf` is always true for finite `d`). -/
def ShippingStrategy.is_applicable (s : ShippingStrategy) (distance_km : ℝ) : Prop :=
  s.min_distance ≤ distance_km ∧
    match s.max_distance with
    | none => True
    | some m => distance_km < m

noncomputable instance (s : ShippingStrategy) (d : ℝ) :
    Decidable (s.is_applicable d) := by
  unfold ShippingStrategy.is_applicable
  rcases s.max_distance with _ | m <;> exact inferInstance

/-- From `src/strategies/base.py`: result of `calculate_cost`. -/
structure ShippingCostResult where
  transport_cost : ℝ
  distance_km : ℝ
  weight_kg : ℝ
  transport_mode : String
  rate_per_km_per_kg : ℝ

/-- Embedding of `ShippingStrategy.calculate_cost`:
`transport_cost = round(distance * rate * weight, 2)`. -/
noncomputable def ShippingStrategy.calculate_cost (s : ShippingStrategy)
    (distance_km weight_kg : ℝ) : ShippingCostResult :=
  let transport_cost := distance_km * s.rate_per_km_per_kg * weight_kg
  { transport_cost := round2 transport_cost
    distance_km := distance_km
    weight_kg := weight_kg
    transport_mode := s.mode_name
    rate_per_km_per_kg := s.rate_per_km_per_kg }

/-- From `src/strategies/mini_van.py`: 0-100 km at 3 INR per km per kg. -/
def MiniVanStrategy : ShippingStrategy :=
  { min_distance := 0, max_distance := some 100
    rate_per_km_per_kg := 3.0, mode_name := "Mini Van" }

/-- From `src/strategies/truck.py`: 100-500 km at 2 INR per km per kg. -/
def TruckStrategy : ShippingStrategy :=
  { min_distance := 100, max_distance := some 500
    rate_per_km_per_kg := 2.0, mode_name := "Truck" }

/-- From `src/strategies/aeroplane.py`: 500+ km at 1 INR per km per kg
(`max_distance = math.inf`). -/
def AeroplaneStrategy : ShippingStrategy :=
  { min_distance := 500, max_distance := none
    rate_per_km_per_kg := 1.0, mode_name := "Aeroplane" }

/-- From `src/strategies/factory.py`: holds the ordered list of strategies. -/
structure ShippingStrategyFactory where
  strategies : List ShippingStrategy

/-- The factory constructor `__init__`: the three default strategies. -/
def ShippingStrategyFactory.default : ShippingStrategyFactory :=
  ⟨[MiniVanStrategy, TruckStrategy, AeroplaneStrategy]⟩

/-- The `for strategy in self._strategies` scan of `get_strategy`. -/
noncomputable def selectFirstApplicable (distance_km : ℝ) :
    List ShippingStrategy → Option ShippingStrategy
  | [] => none
  | s :: rest =>
    if s.is_applicable distance_km then some s
    else selectFirstApplicable distance_km rest

/-- Embedding of `ShippingStrategyFactory.get_strategy`.  The Python message interpolates
the offending distance; the real-number model keeps only the fixed prefix.
`self._strategies[-1]` on an empty list would raise `IndexError`; that
(unreachable for factories built from the constructor) case is modelled as a
`valueError`. -/
noncomputable def ShippingStrategyFactory.get_strategy
    (f : ShippingStrategyFactory) (distance_km : ℝ) :
    Except PyError ShippingStrategy :=
  if distance_km < 0 then
    .error (.valueError "Distance cannot be negative")
  else
    match selectFirstApplicable distance_km f.strategies with
    | some s => .ok s
    | none =>
      match f.strategies.getLast? with
      | some s => .ok s
      | none => .error (.valueError "list index out of range")

/-- The sort key comparison of `register_strategy`
(`self._strategies.sort(key=lambda s: s.min_distance)`). -/
noncomputable def strategyLE (a b : ShippingStrategy) : Bool :=
  decide (a.min_distance ≤ b.min_distance)

/-- Embedding of `ShippingStrategyFactory.register_strategy`: append, then stable-sort by
ascending `min_distance` (Python `list.sort` is a stable sort; so is
`List.mergeSort`). -/
noncomputable def ShippingStrategyFactory.register_strategy
    (f : ShippingStrategyFactory) (s : ShippingStrategy) :
    ShippingStrategyFactory :=
  ⟨(f.strategies ++ [s]).mergeSort strategyLE⟩

/-- From `src/entities/product.py`: optional product dimensions. -/
structure Dimensions where
  length : ℝ
  width : ℝ
  height : ℝ

/-- From `src/entities/product.py`: marketplace product. -/
structure Product where
  product_id : ℤ
  name : String
  price : ℝ
  weight_kg : ℝ
  dimensions : Option Dimensions := none

/-- The `__post_init__` validation of `Product`: non-negative price and
strictly positive weight. -/
def Product.valid (p : Product) : Prop := 0 ≤ p.price ∧ 0 < p.weight_kg

/-- From `src/entities/warehouse.py`. -/
structure Warehouse where
  warehouse_id : ℤ
  location : Location
  name : String := ""

/-- From `src/entities/seller.py`. -/
structure Seller where
  seller_id : ℤ
  name : String
  location : Location

/-- From `src/entities/customer.py`. -/
structure Customer where
  customer_id : ℤ
  name : String
  location : Location

/-!
`src/repositories/base.py` stores entities in a `Dict[int, T]` keyed by id;
Python dicts iterate in insertion order.  A repository is modelled as the
list of stored entities in insertion order (ids assumed distinct, as `add`
keys by id), and `get_by_id` as the first entity with a matching id.
-/

/-- Embedding of `WarehouseRepository.get_by_id`. -/
def warehouseGetById (repo : List Warehouse) (entity_id : ℤ) : Option Warehouse :=
  repo.find? (fun w => w.warehouse_id == entity_id)

/-- Embedding of `CustomerRepository.get_by_id`. -/
def customerGetById (repo : List Customer) (entity_id : ℤ) : Option Customer :=
  repo.find? (fun c => c.customer_id == entity_id)

/-- Embedding of `ProductRepository.get_by_id`. -/
def productGetById (repo : List Product) (entity_id : ℤ) : Option Product :=
  repo.find? (fun p => p.product_id == entity_id)

/-- Embedding of `SellerRepository.get_by_id`. -/
def sellerGetById (repo : List Seller) (entity_id : ℤ) : Option Seller :=
  repo.find? (fun s => s.seller_id == entity_id)

/-- From `src/services/warehouse_service.py`: repositories used by the service. -/
structure WarehouseService where
  warehouse_repo : List Warehouse
  seller_repo : List Seller

/-- The `for warehouse in warehouses` loop of `find_nearest_warehouse`.
The accumulator `(nearest, min_distance)` starts as `(none, none)`, where
`none` in the second slot models the initial `float(inf)`: the comparison
`distance < min_distance` is then true for every (finite, real) distance. -/
noncomputable def nearestLoop (sellerLoc : Location)
    (acc : Option Warehouse × Option ℝ) :
    List Warehouse → Option Warehouse × Option ℝ
  | [] => acc
  | warehouse :: rest =>
    let distance := DistanceCalculator.calculate sellerLoc warehouse.location
    match acc.2 with
    | none => nearestLoop sellerLoc (some warehouse, some distance) rest
    | some min_distance =>
      if distance < min_distance then
        nearestLoop sellerLoc (some warehouse, some distance) rest
      else
        nearestLoop sellerLoc acc rest

/-- Embedding of `WarehouseService.find_nearest_warehouse`.  The Python signature promises
`Tuple[Warehouse, float]`; the returned options reflect the initial
`(None, float(inf))` state, which survives only when the warehouse list is
empty (already excluded by the guard). -/
noncomputable def WarehouseService.find_nearest_warehouse
    (svc : WarehouseService) (seller_id : ℤ) :
    Except PyError (Option Warehouse × Option ℝ) :=
  match sellerGetById svc.seller_repo seller_id with
  | none =>
    .error (.notFoundError ("Seller with ID " ++ toString seller_id ++ " not found"))
  | some seller =>
    match svc.warehouse_repo with
    | [] => .error (.notFoundError "No warehouses available in the system")
    | w :: rest => .ok (nearestLoop seller.location (none, none) (w :: rest))

/-- From `src/services/shipping_charge_service.py`: `DeliverySpeed` enum. -/
inductive DeliverySpeed where
  | standard
  | express
deriving DecidableEq

/-- The `.value` of each `DeliverySpeed` member. -/
def DeliverySpeed.value : DeliverySpeed → String
  | .standard => "standard"
  | .express => "express"

/-- Embedding of `DeliveryCost` dataclass. -/
structure DeliveryCost where
  base_charge : ℝ
  extra_charge : ℝ
  total : ℝ
  speed : String

/-- Embedding of `ShippingChargeResult` dataclass. -/
structure ShippingChargeResult where
  shipping_charge : ℝ
  distance_km : ℝ
  transport_mode : String
  transport_cost : ℝ
  delivery_cost : DeliveryCost
  weight_kg : ℝ

/-- Embedding of `TotalShippingResult` dataclass. -/
structure TotalShippingResult where
  shipping_charge : ℝ
  nearest_warehouse : Warehouse
  distance_km : ℝ
  breakdown : ShippingChargeResult

/-- Class constant `BASE_COURIER_CHARGE`. -/
def BASE_COURIER_CHARGE : ℝ := 10.0

/-- Class constant `EXPRESS_EXTRA_PER_KG`. -/
def EXPRESS_EXTRA_PER_KG : ℝ := 1.2

/-- From `src/services/shipping_charge_service.py`: the dependencies of the service. -/
structure ShippingChargeService where
  warehouse_repo : List Warehouse
  customer_repo : List Customer
  product_repo : List Product
  warehouse_service : WarehouseService
  strategy_factory : ShippingStrategyFactory

/-- Python `str.lower()`: lower-case every character.  (`String.toLower`
is extensionally the same but is defined by well-founded recursion, which
blocks kernel evaluation; the plain character-list map is used instead.) -/
def pyLower (s : String) : String := ⟨s.data.map Char.toLower⟩

/-- Embedding of `ShippingChargeService._validate_delivery_speed`:
`DeliverySpeed(speed.lower())`, raising `ValidationError` when the lowered
string is not an enum value.  The Python message quotes the speed and the
list of valid values; the quotes are elided here. -/
def validate_delivery_speed (speed : String) : Except PyError DeliverySpeed :=
  if pyLower speed = "standard" then .ok .standard
  else if pyLower speed = "express" then .ok .express
  else
    .error (.validationError
      ("Invalid delivery speed " ++ speed ++ ". Supported speeds: [standard, express]"))

/-- Embedding of `ShippingChargeService._calculate_delivery_cost`.  Note that the stored
`extra_charge` is rounded but the `total` is computed from the raw
`extra_charge` before rounding, exactly as in the source. -/
noncomputable def calculate_delivery_cost (speed : DeliverySpeed)
    (weight_kg : ℝ) : DeliveryCost :=
  let base_charge := BASE_COURIER_CHARGE
  let extra_charge := if speed = .express then EXPRESS_EXTRA_PER_KG * weight_kg else 0.0
  { base_charge := base_charge
    extra_charge := round2 extra_charge
    total := round2 (base_charge + extra_charge)
    speed := speed.value }

/-- Embedding of `ShippingChargeService.calculate_from_warehouse`. -/
noncomputable def calculate_from_warehouse (svc : ShippingChargeService)
    (warehouse_id customer_id product_id : ℤ) (delivery_speed : String) :
    Except PyError ShippingChargeResult :=
  match validate_delivery_speed delivery_speed with
  | .error e => .error e
  | .ok speed =>
  match warehouseGetById svc.warehouse_repo warehouse_id with
  | none =>
    .error (.notFoundError ("Warehouse with ID " ++ toString warehouse_id ++ " not found"))
  | some warehouse =>
  match customerGetById svc.customer_repo customer_id with
  | none =>
    .error (.notFoundError ("Customer with ID " ++ toString customer_id ++ " not found"))
  | some customer =>
  match productGetById svc.product_repo product_id with
  | none =>
    .error (.notFoundError ("Product with ID " ++ toString product_id ++ " not found"))
  | some product =>
  let distance_km := DistanceCalculator.calculate warehouse.location customer.location
  match svc.strategy_factory.get_strategy distance_km with
  | .error e => .error e
  | .ok strategy =>
  let transport_result := strategy.calculate_cost distance_km product.weight_kg
  let delivery_cost := calculate_delivery_cost speed product.weight_kg
  let total_charge := transport_result.transport_cost + delivery_cost.total
  .ok { shipping_charge := round2 total_charge
        distance_km := distance_km
        transport_mode := transport_result.transport_mode
        transport_cost := transport_result.transport_cost
        delivery_cost := delivery_cost
        weight_kg := product.weight_kg }

/-- Embedding of `ShippingChargeService.calculate_total`.  A `None` nearest warehouse
(impossible after the non-empty guard) would raise `AttributeError` on
`.warehouse_id` in Python; that dead branch is modelled as a `valueError`. -/
noncomputable def calculate_total (svc : ShippingChargeService)
    (seller_id customer_id product_id : ℤ) (delivery_speed : String) :
    Except PyError TotalShippingResult :=
  match productGetById svc.product_repo product_id with
  | none =>
    .error (.notFoundError ("Product with ID " ++ toString product_id ++ " not found"))
  | some _product =>
  match svc.warehouse_service.find_nearest_warehouse seller_id with
  | .error e => .error e
  | .ok (none, _) => .error (.valueError "NoneType has no attribute warehouse_id")
  | .ok (some nearest_warehouse, _seller_to_warehouse_distance) =>
  match calculate_from_warehouse svc nearest_warehouse.warehouse_id customer_id
      product_id delivery_speed with
  | .error e => .error e
  | .ok shipping_result =>
  .ok { shipping_charge := shipping_result.shipping_charge
        nearest_warehouse := nearest_warehouse
        distance_km := shipping_result.distance_km
        breakdown := shipping_result }

theorem roundHalfEven_eq_of_lt_half (x : ℝ) (n : ℤ) (h1 : (n : ℝ) ≤ x)
    (h2 : x < (n : ℝ) + 1 / 2) : roundHalfEven x = n := by
  have hfl : ⌊x⌋ = n := by
    rw [Int.floor_eq_iff]
    constructor
    · exact_mod_cast h1
    · push_cast
      linarith
  have hfr : Int.fract x < 1 / 2 := by
    unfold Int.fract
    rw [hfl]
    linarith
  unfold roundHalfEven
  rw [if_pos hfr, hfl]

theorem roundHalfEven_eq_of_gt_half (x : ℝ) (n : ℤ) (h1 : (n : ℝ) + 1 / 2 < x)
    (h2 : x < (n : ℝ) + 1) : roundHalfEven x = n + 1 := by
  have hfl : ⌊x⌋ = n := by
    rw [Int.floor_eq_iff]
    constructor
    · push_cast
      linarith
    · push_cast
      linarith
  have hfr : 1 / 2 < Int.fract x := by
    unfold Int.fract
    rw [hfl]
    linarith
  unfold roundHalfEven
  rw [if_neg (by linarith), if_pos hfr, hfl]

/-- Evaluate `round2 x` when `100 * x` sits in the lower half of its unit
interval (rounds down to `n / 100`). -/
theorem round2_eval_lo (x : ℝ) (n : ℤ) (h1 : (n : ℝ) ≤ 100 * x)
    (h2 : 100 * x < (n : ℝ) + 1 / 2) : round2 x = (n : ℝ) / 100 := by
  unfold round2
  rw [roundHalfEven_eq_of_lt_half (100 * x) n h1 h2]

/-- Evaluate `round2 x` when `100 * x` sits in the upper half of its unit
interval (rounds up to `(n + 1) / 100`). -/
theorem round2_eval_hi (x : ℝ) (n : ℤ) (h1 : (n : ℝ) + 1 / 2 < 100 * x)
    (h2 : 100 * x < (n : ℝ) + 1) : round2 x = ((n : ℝ) + 1) / 100 := by
  unfold round2
  rw [roundHalfEven_eq_of_gt_half (100 * x) n h1 h2]
  push_cast
  ring

theorem round2_ten : round2 10 = 10 := by
  have h := round2_int_div 1000
  norm_num at h
  exact h

theorem round2_round2 (x : ℝ) : round2 (round2 x) = round2 x :=
  round2_int_div (roundHalfEven (100 * x))

/-- A sum of two already-rounded values is fixed by `round2`. -/
theorem round2_add_round2 (x y : ℝ) :
    round2 (round2 x + round2 y) = round2 x + round2 y := by
  rw [round2_eq_div x, round2_eq_div y, div_add_div_same, ← Int.cast_add,
    round2_int_div]

/-- C2: `StrategyFactory.select` rejects negative distances and, with the
default three strategies, returns MiniVan on `[0, 100)`, Truck on
`[100, 500)` and Aeroplane on `[500, ∞)`; each boundary belongs to the
upper tier. -/
theorem claim_C2 (d : ℝ) :
    (d < 0 → ShippingStrategyFactory.default.get_strategy d =
        .error (.valueError "Distance cannot be negative")) ∧
    (0 ≤ d → d < 100 →
        ShippingStrategyFactory.default.get_strategy d = .ok MiniVanStrategy) ∧
    (100 ≤ d → d < 500 →
        ShippingStrategyFactory.default.get_strategy d = .ok TruckStrategy) ∧
    (500 ≤ d →
        ShippingStrategyFactory.default.get_strategy d = .ok AeroplaneStrategy) := by
  refine ⟨fun h => ?_, fun h0 h1 => ?_, fun h0 h1 => ?_, fun h0 => ?_⟩
  · unfold ShippingStrategyFactory.get_strategy
    rw [if_pos h]
  · have hm : MiniVanStrategy.is_applicable d := by
      exact ⟨h0, h1⟩
    unfold ShippingStrategyFactory.get_strategy
    rw [if_neg (not_lt.mpr h0)]
    simp only [ShippingStrategyFactory.default, selectFirstApplicable, hm, if_true]
  · have hnm : ¬ MiniVanStrategy.is_applicable d := by
      intro hc
      exact absurd hc.2 (not_lt.mpr h0)
    have ht : TruckStrategy.is_applicable d := ⟨h0, h1⟩
    unfold ShippingStrategyFactory.get_strategy
    rw [if_neg (not_lt.mpr (by linarith : (0 : ℝ) ≤ d))]
    simp only [ShippingStrategyFactory.default, selectFirstApplicable, hnm,
      if_false, ht, if_true]
  · have hnm : ¬ MiniVanStrategy.is_applicable d := by
      intro hc
      exact absurd hc.2 (not_lt.mpr (by linarith : (100 : ℝ) ≤ d))
    have hnt : ¬ TruckStrategy.is_applicable d := by
      intro hc
      exact absurd hc.2 (not_lt.mpr h0)
    have ha : AeroplaneStrategy.is_applicable d := ⟨h0, trivial⟩
    unfold ShippingStrategyFactory.get_strategy
    rw [if_neg (not_lt.mpr (by linarith : (0 : ℝ) ≤ d))]
    simp only [ShippingStrategyFactory.default, selectFirstApplicable, hnm,
      if_false, hnt, ha, if_true]

theorem claim_C2_witness :
    ShippingStrategyFactory.default.get_strategy 100 = .ok TruckStrategy ∧
    ShippingStrategyFactory.default.get_strategy 500 = .ok AeroplaneStrategy ∧
    ShippingStrategyFactory.default.get_strategy (-1) =
      .error (.valueError "Distance cannot be negative") ∧
    ShippingStrategyFactory.default.get_strategy 99 = .ok MiniVanStrategy :=
  ⟨(claim_C2 100).2.2.1 (by norm_num) (by norm_num),
   (claim_C2 500).2.2.2 (by norm_num),
   (claim_C2 (-1)).1 (by norm_num),
   (claim_C2 99).2.1 (by norm_num) (by norm_num)⟩

/-- C3: delivery cost for weight `w > 0`: base is `10.0`; extra is `0` for
Standard and `round(1.2 * w, 2)` for Express; the Express total equals
`round(10.0 + round(1.2 * w, 2), 2)`. -/
theorem claim_C3 (w : ℝ) (hw : 0 < w) :
    (calculate_delivery_cost .standard w).base_charge = 10 ∧
    (calculate_delivery_cost .express w).base_charge = 10 ∧
    (calculate_delivery_cost .standard w).extra_charge = 0 ∧
    (calculate_delivery_cost .express w).extra_charge =
      round2 (EXPRESS_EXTRA_PER_KG * w) ∧
    (calculate_delivery_cost .standard w).total = round2 (10 + 0) ∧
    (calculate_delivery_cost .express w).total =
      round2 (10 + round2 (EXPRESS_EXTRA_PER_KG * w)) := by
  refine ⟨?_, ?_, ?_, ?_, ?_, ?_⟩
  · simp only [calculate_delivery_cost]
    norm_num [BASE_COURIER_CHARGE]
  · simp only [calculate_delivery_cost]
    norm_num [BASE_COURIER_CHARGE]
  · simp only [calculate_delivery_cost,
      if_neg (show DeliverySpeed.standard ≠ DeliverySpeed.express by decide)]
    norm_num [round2_zero]
  · simp only [calculate_delivery_cost, if_pos rfl, if_true]
  · simp only [calculate_delivery_cost,
      if_neg (show DeliverySpeed.standard ≠ DeliverySpeed.express by decide)]
    norm_num [BASE_COURIER_CHARGE]
  · simp only [calculate_delivery_cost, if_pos rfl, if_true]
    have hb : BASE_COURIER_CHARGE = (10 : ℝ) := by norm_num [BASE_COURIER_CHARGE]
    rw [hb, round2_ten_add, round2_ten_add, round2_round2]

theorem claim_C3_witness :
    (0 : ℝ) < 1 ∧
    (calculate_delivery_cost .express 1).total =
      round2 (10 + round2 (EXPRESS_EXTRA_PER_KG * 1)) :=
  ⟨by norm_num, (claim_C3 1 (by norm_num)).2.2.2.2.2⟩

theorem round2_eq_self (x : ℝ) (n : ℤ) (hx : 100 * x = (n : ℝ)) :
    round2 x = x := by
  have h := round2_eval_lo x n (le_of_eq hx.symm) (by rw [hx]; linarith)
  rw [h]
  field_simp
  linarith

/-- C7 counterexample: in the Truck tier with weight 1, distances 100 and
100.001 produce the same rounded transport cost (200.00), so strict
monotonicity in distance fails. -/
theorem claim_C7_counterexample :
    TruckStrategy.is_applicable 100 ∧
    TruckStrategy.is_applicable (100 + 1 / 1000) ∧
    (100 : ℝ) < 100 + 1 / 1000 ∧ (0 : ℝ) < 1 ∧
    (TruckStrategy.calculate_cost (100 + 1 / 1000) 1).transport_cost =
      (TruckStrategy.calculate_cost 100 1).transport_cost := by
  have e1 : (TruckStrategy.calculate_cost (100 + 1 / 1000) 1).transport_cost
      = (20000 : ℝ) / 100 := by
    simp only [ShippingStrategy.calculate_cost, TruckStrategy]
    rw [round2_eval_lo ((100 + 1 / 1000) * 2.0 * 1) 20000 (by norm_num)
      (by norm_num)]
    norm_num
  have e2 : (TruckStrategy.calculate_cost 100 1).transport_cost = (200 : ℝ) := by
    simp only [ShippingStrategy.calculate_cost, TruckStrategy]
    rw [round2_eq_self ((100 : ℝ) * 2.0 * 1) 20000 (by norm_num)]
    norm_num
  refine ⟨?_, ?_, by norm_num, by norm_num, ?_⟩
  · exact ⟨by norm_num [TruckStrategy], by norm_num [TruckStrategy]⟩
  · exact ⟨by norm_num [TruckStrategy], by norm_num [TruckStrategy]⟩
  · rw [e1, e2]
    norm_num

/-- C7 amended: for a fixed weight `w > 0` and distances in the same default
tier, increasing distance gives a transport cost that is greater *or equal*
(rounding to two decimals can collapse nearby distances, so strictness
fails). -/
theorem claim_C7_amended (s : ShippingStrategy)
    (hs : s ∈ ShippingStrategyFactory.default.strategies)
    (w d1 d2 : ℝ) (hw : 0 < w)
    (h1 : s.is_applicable d1) (h2 : s.is_applicable d2) (hd : d1 < d2) :
    (s.calculate_cost d1 w).transport_cost ≤
      (s.calculate_cost d2 w).transport_cost := by
  have hrate : 0 < s.rate_per_km_per_kg := by
    simp only [ShippingStrategyFactory.default, List.mem_cons,
      List.mem_singleton, List.not_mem_nil, or_false] at hs
    rcases hs with h | h | h <;> subst h <;>
      norm_num [MiniVanStrategy, TruckStrategy, AeroplaneStrategy]
  simp only [ShippingStrategy.calculate_cost]
  apply round2_mono
  have hrw : 0 ≤ s.rate_per_km_per_kg * w := by positivity
  nlinarith [mul_le_mul_of_nonneg_right hd.le hrw]

theorem claim_C7_amended_witness :
    TruckStrategy ∈ ShippingStrategyFactory.default.strategies ∧
    (0 : ℝ) < 1 ∧ TruckStrategy.is_applicable 100 ∧
    TruckStrategy.is_applicable 200 ∧ (100 : ℝ) < 200 ∧
    (TruckStrategy.calculate_cost 100 1).transport_cost ≤
      (TruckStrategy.calculate_cost 200 1).transport_cost := by
  have hmem : TruckStrategy ∈ ShippingStrategyFactory.default.strategies := by
    simp [ShippingStrategyFactory.default]
  have ha1 : TruckStrategy.is_applicable 100 :=
    ⟨by norm_num [TruckStrategy], by norm_num [TruckStrategy]⟩
  have ha2 : TruckStrategy.is_applicable 200 :=
    ⟨by norm_num [TruckStrategy], by norm_num [TruckStrategy]⟩
  exact ⟨hmem, by norm_num, ha1, ha2, by norm_num,
    claim_C7_amended TruckStrategy hmem 1 100 200 (by norm_num) ha1 ha2
      (by norm_num)⟩

/-- C8: the Haversine distance is symmetric, and zero on identical
coordinates. -/
theorem claim_C8 (a b : Location) (ha : a.valid) (hb : b.valid) :
    DistanceCalculator.calculate a b = DistanceCalculator.calculate b a ∧
    DistanceCalculator.calculate a a = 0 :=
  ⟨DistanceCalculator.calculate_symm a b, DistanceCalculator.calculate_self a⟩

theorem claim_C8_witness :
    Location.valid ⟨0, 0⟩ ∧ Location.valid ⟨45, 90⟩ ∧
    DistanceCalculator.calculate ⟨0, 0⟩ ⟨45, 90⟩ =
      DistanceCalculator.calculate ⟨45, 90⟩ ⟨0, 0⟩ ∧
    DistanceCalculator.calculate ⟨0, 0⟩ ⟨0, 0⟩ = 0 :=
  ⟨by norm_num [Location.valid], by norm_num [Location.valid],
   (claim_C8 ⟨0, 0⟩ ⟨45, 90⟩ (by norm_num [Location.valid])
     (by norm_num [Location.valid])).1,
   (claim_C8 ⟨0, 0⟩ ⟨0, 0⟩ (by norm_num [Location.valid])
     (by norm_num [Location.valid])).2⟩

theorem selectFirstApplicable_eq_none {d : ℝ} {l : List ShippingStrategy}
    (h : ∀ s ∈ l, ¬ s.is_applicable d) : selectFirstApplicable d l = none := by
  induction l with
  | nil => rfl
  | cons x xs ih =>
    unfold selectFirstApplicable
    rw [if_neg (h x (List.mem_cons_self x xs))]
    exact ih (fun s hs => h s (List.mem_cons_of_mem _ hs))

theorem pairwise_le_getLast {l : List ShippingStrategy} {last : ShippingStrategy}
    (hp : l.Pairwise (fun a b => a.min_distance ≤ b.min_distance))
    (hl : l.getLast? = some last) :
    ∀ s ∈ l, s.min_distance ≤ last.min_distance := by
  induction l with
  | nil => simp at hl
  | cons x xs ih =>
    rcases xs with _ | ⟨y, ys⟩
    · simp only [List.getLast?_singleton, Option.some.injEq] at hl
      subst hl
      intro s hs
      simp only [List.mem_singleton] at hs
      subst hs
      exact le_refl _
    · have hl' : (y :: ys).getLast? = some last := by
        rw [← List.getLast?_cons_cons (a := x)]
        exact hl
      have hmem : last ∈ y :: ys := List.mem_of_getLast?_eq_some hl'
      intro s hs
      rcases List.mem_cons.mp hs with rfl | hs'
      · exact (List.pairwise_cons.mp hp).1 last hmem
      · exact ih (List.pairwise_cons.mp hp).2 hl' s hs'

/-- C9: the strategy list of the default factory is sorted by ascending
`min_distance`; after any `register_strategy` call (hence after any sequence
of them) the list is again sorted; and when no strategy is applicable to a
non-negative distance, `get_strategy` returns the last list element, which
under sortedness carries the highest `min_distance`. -/
theorem claim_C9 :
    (ShippingStrategyFactory.default.strategies.Pairwise
      (fun a b => a.min_distance ≤ b.min_distance)) ∧
    (∀ (f : ShippingStrategyFactory) (s : ShippingStrategy),
      (f.register_strategy s).strategies.Pairwise
        (fun a b => a.min_distance ≤ b.min_distance)) ∧
    (∀ (f : ShippingStrategyFactory) (d : ℝ), 0 ≤ d →
      (∀ s ∈ f.strategies, ¬ s.is_applicable d) →
      ∀ last, f.strategies.getLast? = some last →
        f.get_strategy d = .ok last ∧
        (f.strategies.Pairwise (fun a b => a.min_distance ≤ b.min_distance) →
          ∀ s ∈ f.strategies, s.min_distance ≤ last.min_distance)) := by
  refine ⟨?_, ?_, ?_⟩
  · norm_num [ShippingStrategyFactory.default, MiniVanStrategy, TruckStrategy,
      AeroplaneStrategy, List.pairwise_cons]
  · intro f s
    have hsorted := @List.sorted_mergeSort ShippingStrategy strategyLE
      (fun a b c hab hbc => by
        simp only [strategyLE, decide_eq_true_eq] at hab hbc ⊢
        exact le_trans hab hbc)
      (fun a b => by
        simp only [strategyLE, Bool.or_eq_true, decide_eq_true_eq]
        exact le_total a.min_distance b.min_distance)
      (f.strategies ++ [s])
    simp only [ShippingStrategyFactory.register_strategy]
    exact hsorted.imp (fun h => by
      simpa only [strategyLE, decide_eq_true_eq] using h)
  · intro f d hd hnone last hlast
    constructor
    · unfold ShippingStrategyFactory.get_strategy
      rw [if_neg (not_lt.mpr hd), selectFirstApplicable_eq_none hnone, hlast]
    · intro hp
      exact pairwise_le_getLast hp hlast

theorem claim_C9_witness :
    (0 : ℝ) ≤ 200 ∧
    (∀ s ∈ (ShippingStrategyFactory.mk [MiniVanStrategy, AeroplaneStrategy]).strategies,
      ¬ s.is_applicable (200 : ℝ)) ∧
    (ShippingStrategyFactory.mk [MiniVanStrategy, AeroplaneStrategy]).strategies.getLast?
      = some AeroplaneStrategy ∧
    (ShippingStrategyFactory.mk [MiniVanStrategy, AeroplaneStrategy]).get_strategy 200
      = .ok AeroplaneStrategy ∧
    (ShippingStrategyFactory.default.register_strategy TruckStrategy).strategies.Pairwise
      (fun a b => a.min_distance ≤ b.min_distance) := by
  have hnone : ∀ s ∈ (ShippingStrategyFactory.mk
      [MiniVanStrategy, AeroplaneStrategy]).strategies,
      ¬ s.is_applicable (200 : ℝ) := by
    intro s hs
    simp only [List.mem_cons, List.mem_singleton, List.not_mem_nil, or_false] at hs
    rcases hs with h | h <;> subst h <;> intro hc
    · exact absurd hc.2 (by norm_num [MiniVanStrategy])
    · exact absurd hc.1 (by norm_num [AeroplaneStrategy])
  have hlast : (ShippingStrategyFactory.mk
      [MiniVanStrategy, AeroplaneStrategy]).strategies.getLast?
      = some AeroplaneStrategy := rfl
  refine ⟨by norm_num, hnone, hlast, ?_, ?_⟩
  · exact ((claim_C9.2.2 (ShippingStrategyFactory.mk
      [MiniVanStrategy, AeroplaneStrategy]) 200 (by norm_num) hnone
      AeroplaneStrategy hlast)).1
  · exact claim_C9.2.1 ShippingStrategyFactory.default TruckStrategy

theorem get_strategy_default_mini (d : ℝ) (h0 : 0 ≤ d) (h1 : d < 100) :
    ShippingStrategyFactory.default.get_strategy d = .ok MiniVanStrategy := by
  have hm : MiniVanStrategy.is_applicable d := ⟨h0, h1⟩
  unfold ShippingStrategyFactory.get_strategy
  rw [if_neg (not_lt.mpr h0)]
  simp only [ShippingStrategyFactory.default, selectFirstApplicable, hm, if_true]

/-- The record built in the final `return` of `calculate_from_warehouse`,
as a function of the resolved entities and selected strategy. -/
noncomputable def calcFromWarehouseResult (sp : DeliverySpeed)
    (warehouse : Warehouse) (customer : Customer) (product : Product)
    (strategy : ShippingStrategy) : ShippingChargeResult :=
  let distance_km := DistanceCalculator.calculate warehouse.location customer.location
  let transport_result := strategy.calculate_cost distance_km product.weight_kg
  let delivery_cost := calculate_delivery_cost sp product.weight_kg
  { shipping_charge := round2 (transport_result.transport_cost + delivery_cost.total)
    distance_km := distance_km
    transport_mode := transport_result.transport_mode
    transport_cost := transport_result.transport_cost
    delivery_cost := delivery_cost
    weight_kg := product.weight_kg }

theorem cfw_ok_intro (svc : ShippingChargeService) (wid cid pid : ℤ)
    (speed : String) (sp : DeliverySpeed) (warehouse : Warehouse)
    (customer : Customer) (product : Product) (strategy : ShippingStrategy)
    (hval : validate_delivery_speed speed = .ok sp)
    (hw : warehouseGetById svc.warehouse_repo wid = some warehouse)
    (hc : customerGetById svc.customer_repo cid = some customer)
    (hp : productGetById svc.product_repo pid = some product)
    (hs : svc.strategy_factory.get_strategy
      (DistanceCalculator.calculate warehouse.location customer.location) =
        .ok strategy) :
    calculate_from_warehouse svc wid cid pid speed =
      .ok (calcFromWarehouseResult sp warehouse customer product strategy) := by
  simp only [calculate_from_warehouse, hval, hw, hc, hp, hs,
    calcFromWarehouseResult]

theorem cfw_ok_elim {svc : ShippingChargeService} {wid cid pid : ℤ}
    {speed : String} {res : ShippingChargeResult}
    (h : calculate_from_warehouse svc wid cid pid speed = .ok res) :
    ∃ sp warehouse customer product strategy,
      validate_delivery_speed speed = .ok sp ∧
      warehouseGetById svc.warehouse_repo wid = some warehouse ∧
      customerGetById svc.customer_repo cid = some customer ∧
      productGetById svc.product_repo pid = some product ∧
      svc.strategy_factory.get_strategy
        (DistanceCalculator.calculate warehouse.location customer.location) =
          .ok strategy ∧
      res = calcFromWarehouseResult sp warehouse customer product strategy := by
  simp only [calculate_from_warehouse] at h
  split at h
  · exact absurd h (by simp)
  · rename_i sp hval
    split at h
    · exact absurd h (by simp)
    · rename_i warehouse hw
      split at h
      · exact absurd h (by simp)
      · rename_i customer hc
        split at h
        · exact absurd h (by simp)
        · rename_i product hp
          split at h
          · exact absurd h (by simp)
          · rename_i strategy hs
            refine ⟨sp, warehouse, customer, product, strategy,
              hval, hw, hc, hp, hs, ?_⟩
            simp only [Except.ok.injEq] at h
            exact h.symm

/-- C1: every successful `calculate_from_warehouse` call returns
`shippingCharge = round(transportCost + deliveryTotal, 2)` where
`transportCost = round(d * rate * w, 2)` for the selected strategy and the
delivery cost is the (already internally rounded) delivery-cost record, and
the breakdown fields are exactly these intermediate values. -/
theorem claim_C1 (svc : ShippingChargeService) (wid cid pid : ℤ)
    (speed : String) (res : ShippingChargeResult)
    (h : calculate_from_warehouse svc wid cid pid speed = .ok res) :
    ∃ sp warehouse customer product strategy,
      validate_delivery_speed speed = .ok sp ∧
      warehouseGetById svc.warehouse_repo wid = some warehouse ∧
      customerGetById svc.customer_repo cid = some customer ∧
      productGetById svc.product_repo pid = some product ∧
      svc.strategy_factory.get_strategy res.distance_km = .ok strategy ∧
      res.distance_km =
        DistanceCalculator.calculate warehouse.location customer.location ∧
      res.weight_kg = product.weight_kg ∧
      res.transport_mode = strategy.mode_name ∧
      res.transport_cost =
        round2 (res.distance_km * strategy.rate_per_km_per_kg * res.weight_kg) ∧
      res.delivery_cost = calculate_delivery_cost sp product.weight_kg ∧
      res.shipping_charge =
        round2 (res.transport_cost + res.delivery_cost.total) := by
  obtain ⟨sp, warehouse, customer, product, strategy, hval, hw, hc, hp, hs, hres⟩ :=
    cfw_ok_elim h
  subst hres
  exact ⟨sp, warehouse, customer, product, strategy, hval, hw, hc, hp, hs,
    rfl, rfl, rfl, rfl, rfl, rfl⟩

/-! Concrete fixtures used by the witnesses: all entities share one
coordinate, so the Haversine distance evaluates to zero exactly. -/

def origin : Location := ⟨0, 0⟩

def wh0 : Warehouse := { warehouse_id := 1, location := origin, name := "Central" }

def cust0 : Customer := { customer_id := 1, name := "Buyer", location := origin }

def prod0 : Product := { product_id := 1, name := "Widget", price := 100, weight_kg := 1 }

def seller0 : Seller := { seller_id := 1, name := "Store", location := origin }

def wsvc0 : WarehouseService := { warehouse_repo := [wh0], seller_repo := [seller0] }

def svc0 : ShippingChargeService :=
  { warehouse_repo := [wh0], customer_repo := [cust0], product_repo := [prod0]
    warehouse_service := wsvc0, strategy_factory := ShippingStrategyFactory.default }

theorem dist_origin : DistanceCalculator.calculate wh0.location cust0.location = 0 :=
  DistanceCalculator.calculate_self origin

theorem get_strategy_origin :
    ShippingStrategyFactory.default.get_strategy
      (DistanceCalculator.calculate wh0.location cust0.location) =
      .ok MiniVanStrategy := by
  rw [dist_origin]
  exact get_strategy_default_mini 0 le_rfl (by norm_num)

theorem cfw_svc0_standard :
    calculate_from_warehouse svc0 1 1 1 "standard" =
      .ok (calcFromWarehouseResult .standard wh0 cust0 prod0 MiniVanStrategy) :=
  cfw_ok_intro svc0 1 1 1 "standard" .standard wh0 cust0 prod0 MiniVanStrategy
    rfl rfl rfl rfl get_strategy_origin

theorem cfw_svc0_express :
    calculate_from_warehouse svc0 1 1 1 "express" =
      .ok (calcFromWarehouseResult .express wh0 cust0 prod0 MiniVanStrategy) :=
  cfw_ok_intro svc0 1 1 1 "express" .express wh0 cust0 prod0 MiniVanStrategy
    rfl rfl rfl rfl get_strategy_origin

theorem claim_C1_witness :
    ∃ res, calculate_from_warehouse svc0 1 1 1 "standard" = .ok res ∧
      ∃ sp warehouse customer product strategy,
        validate_delivery_speed "standard" = .ok sp ∧
        warehouseGetById svc0.warehouse_repo 1 = some warehouse ∧
        customerGetById svc0.customer_repo 1 = some customer ∧
        productGetById svc0.product_repo 1 = some product ∧
        svc0.strategy_factory.get_strategy res.distance_km = .ok strategy ∧
        res.distance_km =
          DistanceCalculator.calculate warehouse.location customer.location ∧
        res.weight_kg = product.weight_kg ∧
        res.transport_mode = strategy.mode_name ∧
        res.transport_cost =
          round2 (res.distance_km * strategy.rate_per_km_per_kg * res.weight_kg) ∧
        res.delivery_cost = calculate_delivery_cost sp product.weight_kg ∧
        res.shipping_charge =
          round2 (res.transport_cost + res.delivery_cost.total) :=
  ⟨_, cfw_svc0_standard, claim_C1 svc0 1 1 1 "standard" _ cfw_svc0_standard⟩

/-- C5: the delivery-speed string is parsed case-insensitively into
standard/express; any other string makes `calculate_from_warehouse` fail
with a validation error regardless of the repositories (i.e. before any
entity lookup); and a missing warehouse, customer or product id yields a
not-found error naming the entity type and id. -/
theorem claim_C5 :
    (∀ (speed : String) (svc : ShippingChargeService) (wid cid pid : ℤ),
      pyLower speed ≠ "standard" → pyLower speed ≠ "express" →
      calculate_from_warehouse svc wid cid pid speed =
        .error (.validationError ("Invalid delivery speed " ++ speed ++
          ". Supported speeds: [standard, express]"))) ∧
    (∀ speed : String, pyLower speed = "standard" →
      validate_delivery_speed speed = .ok .standard) ∧
    (∀ speed : String, pyLower speed = "express" →
      validate_delivery_speed speed = .ok .express) ∧
    (∀ (svc : ShippingChargeService) (wid cid pid : ℤ) (speed : String)
        (sp : DeliverySpeed),
      validate_delivery_speed speed = .ok sp →
      warehouseGetById svc.warehouse_repo wid = none →
      calculate_from_warehouse svc wid cid pid speed =
        .error (.notFoundError
          ("Warehouse with ID " ++ toString wid ++ " not found"))) ∧
    (∀ (svc : ShippingChargeService) (wid cid pid : ℤ) (speed : String)
        (sp : DeliverySpeed) (warehouse : Warehouse),
      validate_delivery_speed speed = .ok sp →
      warehouseGetById svc.warehouse_repo wid = some warehouse →
      customerGetById svc.customer_repo cid = none →
      calculate_from_warehouse svc wid cid pid speed =
        .error (.notFoundError
          ("Customer with ID " ++ toString cid ++ " not found"))) ∧
    (∀ (svc : ShippingChargeService) (wid cid pid : ℤ) (speed : String)
        (sp : DeliverySpeed) (warehouse : Warehouse) (customer : Customer),
      validate_delivery_speed speed = .ok sp →
      warehouseGetById svc.warehouse_repo wid = some warehouse →
      customerGetById svc.customer_repo cid = some customer →
      productGetById svc.product_repo pid = none →
      calculate_from_warehouse svc wid cid pid speed =
        .error (.notFoundError
          ("Product with ID " ++ toString pid ++ " not found"))) := by
  refine ⟨?_, ?_, ?_, ?_, ?_, ?_⟩
  · intro speed svc wid cid pid h1 h2
    have hval : validate_delivery_speed speed =
        .error (.validationError ("Invalid delivery speed " ++ speed ++
          ". Supported speeds: [standard, express]")) := by
      unfold validate_delivery_speed
      rw [if_neg h1, if_neg h2]
    simp only [calculate_from_warehouse, hval]
  · intro speed h
    unfold validate_delivery_speed
    rw [if_pos h]
  · intro speed h
    unfold validate_delivery_speed
    rw [h]
    simp
  · intro svc wid cid pid speed sp hval hw
    simp only [calculate_from_warehouse, hval, hw]
  · intro svc wid cid pid speed sp warehouse hval hw hc
    simp only [calculate_from_warehouse, hval, hw, hc]
  · intro svc wid cid pid speed sp warehouse customer hval hw hc hp
    simp only [calculate_from_warehouse, hval, hw, hc, hp]

theorem claim_C5_witness :
    (pyLower "FAST" ≠ "standard" ∧ pyLower "FAST" ≠ "express" ∧
      calculate_from_warehouse svc0 1 1 1 "FAST" =
        .error (.validationError ("Invalid delivery speed " ++ "FAST" ++
          ". Supported speeds: [standard, express]"))) ∧
    (pyLower "EXPRESS" = "express" ∧
      validate_delivery_speed "EXPRESS" = .ok .express) ∧
    (warehouseGetById svc0.warehouse_repo 7 = none ∧
      calculate_from_warehouse svc0 7 1 1 "standard" =
        .error (.notFoundError
          ("Warehouse with ID " ++ toString (7 : ℤ) ++ " not found"))) := by
  refine ⟨⟨?_, ?_, ?_⟩, ⟨?_, ?_⟩, ⟨?_, ?_⟩⟩
  · decide
  · decide
  · exact claim_C5.1 "FAST" svc0 1 1 1 (by decide) (by decide)
  · decide
  · exact claim_C5.2.2.1 "EXPRESS" (by decide)
  · rfl
  · exact claim_C5.2.2.2.1 svc0 7 1 1 "standard" .standard rfl rfl

/-- A valid product with a tiny positive weight (1 gram). -/
noncomputable def prod6 : Product :=
  { product_id := 1, name := "Feather", price := 5, weight_kg := 1 / 1000 }

noncomputable def svc6 : ShippingChargeService :=
  { warehouse_repo := [wh0], customer_repo := [cust0], product_repo := [prod6]
    warehouse_service := wsvc0, strategy_factory := ShippingStrategyFactory.default }

theorem cfw_svc6_express :
    calculate_from_warehouse svc6 1 1 1 "express" =
      .ok (calcFromWarehouseResult .express wh0 cust0 prod6 MiniVanStrategy) :=
  cfw_ok_intro svc6 1 1 1 "express" .express wh0 cust0 prod6 MiniVanStrategy
    rfl rfl rfl rfl get_strategy_origin

theorem cfw_svc6_standard :
    calculate_from_warehouse svc6 1 1 1 "standard" =
      .ok (calcFromWarehouseResult .standard wh0 cust0 prod6 MiniVanStrategy) :=
  cfw_ok_intro svc6 1 1 1 "standard" .standard wh0 cust0 prod6 MiniVanStrategy
    rfl rfl rfl rfl get_strategy_origin

theorem charge6_express :
    (calcFromWarehouseResult .express wh0 cust0 prod6 MiniVanStrategy).shipping_charge
      = 10 := by
  have h1 : (0 : ℝ) * MiniVanStrategy.rate_per_km_per_kg * prod6.weight_kg = 0 := by
    norm_num
  have h2 : BASE_COURIER_CHARGE + EXPRESS_EXTRA_PER_KG * prod6.weight_kg =
      10 + 3 / 2500 := by
    norm_num [BASE_COURIER_CHARGE, EXPRESS_EXTRA_PER_KG, prod6]
  simp only [calcFromWarehouseResult, ShippingStrategy.calculate_cost,
    calculate_delivery_cost, dist_origin, if_pos rfl, if_true, h1, h2]
  rw [round2_zero, round2_eval_lo (10 + 3 / 2500 : ℝ) 1000 (by push_cast; norm_num)
    (by push_cast; norm_num)]
  rw [show (0 : ℝ) + ((1000 : ℤ) : ℝ) / 100 = 10 by push_cast; norm_num]
  exact round2_ten

theorem charge6_standard :
    (calcFromWarehouseResult .standard wh0 cust0 prod6 MiniVanStrategy).shipping_charge
      = 10 := by
  have h1 : (0 : ℝ) * MiniVanStrategy.rate_per_km_per_kg * prod6.weight_kg = 0 := by
    norm_num
  have h2 : BASE_COURIER_CHARGE + 0.0 = (10 : ℝ) := by
    norm_num [BASE_COURIER_CHARGE]
  simp only [calcFromWarehouseResult, ShippingStrategy.calculate_cost,
    calculate_delivery_cost,
    if_neg (show DeliverySpeed.standard ≠ DeliverySpeed.express by decide),
    dist_origin, h1, h2]
  rw [round2_zero, round2_ten]
  rw [show (0 : ℝ) + 10 = 10 by norm_num]
  exact round2_ten

/-- C6 counterexample: for the valid product of weight 0.001 kg the Express
and Standard shipping charges are equal (both 10.00), although the weight is
strictly positive — the claimed "equality only when weight = 0" fails. -/
theorem claim_C6_counterexample :
    prod6.weight_kg = 1 / 1000 ∧ 0 < prod6.weight_kg ∧ Product.valid prod6 ∧
    ∃ re rs,
      calculate_from_warehouse svc6 1 1 1 "express" = .ok re ∧
      calculate_from_warehouse svc6 1 1 1 "standard" = .ok rs ∧
      re.shipping_charge = rs.shipping_charge := by
  refine ⟨by norm_num [prod6], by norm_num [prod6],
    by norm_num [Product.valid, prod6], _, _,
    cfw_svc6_express, cfw_svc6_standard, ?_⟩
  rw [charge6_express, charge6_standard]

/-- C6 amended: for the same service and entities, the Express shipping
charge is greater than or equal to the Standard one, with equality exactly
when the rounded express surcharge `round(1.2 * w, 2)` is zero — which
happens for some strictly positive weights (any `w ≤ 1/240`), not only for
`w = 0`. -/
theorem claim_C6_amended (svc : ShippingChargeService) (wid cid pid : ℤ)
    (re rs : ShippingChargeResult)
    (he : calculate_from_warehouse svc wid cid pid "express" = .ok re)
    (hst : calculate_from_warehouse svc wid cid pid "standard" = .ok rs)
    (hw : 0 < re.weight_kg) :
    rs.shipping_charge ≤ re.shipping_charge ∧
    (re.shipping_charge = rs.shipping_charge ↔
      round2 (EXPRESS_EXTRA_PER_KG * re.weight_kg) = 0) := by
  obtain ⟨spe, w1, c1, p1, st1, hvale, hw1, hc1, hp1, hs1, hre⟩ := cfw_ok_elim he
  obtain ⟨sps, w2, c2, p2, st2, hvals, hw2, hc2, hp2, hs2, hrs⟩ := cfw_ok_elim hst
  have hspe : spe = .express := by
    have h0 : validate_delivery_speed "express" = .ok DeliverySpeed.express := rfl
    rw [h0] at hvale
    exact (Except.ok.inj hvale).symm
  have hsps : sps = .standard := by
    have h0 : validate_delivery_speed "standard" = .ok DeliverySpeed.standard := rfl
    rw [h0] at hvals
    exact (Except.ok.inj hvals).symm
  have hww : w1 = w2 := Option.some.inj (hw1.symm.trans hw2)
  have hcc : c1 = c2 := Option.some.inj (hc1.symm.trans hc2)
  have hpp : p1 = p2 := Option.some.inj (hp1.symm.trans hp2)
  subst hspe hsps hww hcc hpp
  have hstst : st1 = st2 := Except.ok.inj (hs1.symm.trans hs2)
  subst hstst
  subst hre hrs
  simp only [calcFromWarehouseResult, ShippingStrategy.calculate_cost,
    calculate_delivery_cost, if_pos rfl, if_true,
    if_neg (show DeliverySpeed.standard ≠ DeliverySpeed.express by decide)]
    at hw ⊢
  have hb : BASE_COURIER_CHARGE = (10 : ℝ) := by norm_num [BASE_COURIER_CHARGE]
  have hE : EXPRESS_EXTRA_PER_KG = (1.2 : ℝ) := by norm_num [EXPRESS_EXTRA_PER_KG]
  rw [hb, show ((10 : ℝ) + 0.0) = 10 by norm_num]
  rw [round2_add_round2
    (DistanceCalculator.calculate w1.location c1.location *
      st1.rate_per_km_per_kg * p1.weight_kg)
    (10 + EXPRESS_EXTRA_PER_KG * p1.weight_kg)]
  rw [round2_add_round2
    (DistanceCalculator.calculate w1.location c1.location *
      st1.rate_per_km_per_kg * p1.weight_kg) 10]
  rw [round2_ten, round2_ten_add (EXPRESS_EXTRA_PER_KG * p1.weight_kg)]
  have hnn : 0 ≤ round2 (EXPRESS_EXTRA_PER_KG * p1.weight_kg) := by
    apply round2_nonneg
    rw [hE]
    nlinarith [hw]
  refine ⟨by linarith, ⟨fun h => by linarith, fun h => by rw [h]; ring⟩⟩

theorem claim_C6_amended_witness :
    calculate_from_warehouse svc0 1 1 1 "express" =
      .ok (calcFromWarehouseResult .express wh0 cust0 prod0 MiniVanStrategy) ∧
    calculate_from_warehouse svc0 1 1 1 "standard" =
      .ok (calcFromWarehouseResult .standard wh0 cust0 prod0 MiniVanStrategy) ∧
    0 < (calcFromWarehouseResult .express wh0 cust0 prod0 MiniVanStrategy).weight_kg ∧
    (calcFromWarehouseResult .standard wh0 cust0 prod0 MiniVanStrategy).shipping_charge
      ≤ (calcFromWarehouseResult .express wh0 cust0 prod0 MiniVanStrategy).shipping_charge := by
  have hwpos :
      0 < (calcFromWarehouseResult .express wh0 cust0 prod0 MiniVanStrategy).weight_kg := by
    norm_num [calcFromWarehouseResult, prod0]
  exact ⟨cfw_svc0_express, cfw_svc0_standard, hwpos,
    (claim_C6_amended svc0 1 1 1 _ _ cfw_svc0_express cfw_svc0_standard hwpos).1⟩

theorem nearestLoop_go (sLoc : Location) (ws : List Warehouse) :
    ∀ (w0 : Warehouse) (m0 : ℝ),
      ((∀ x ∈ ws, m0 ≤ DistanceCalculator.calculate sLoc x.location) ∧
        nearestLoop sLoc (some w0, some m0) ws = (some w0, some m0)) ∨
      (∃ pre y post, ws = pre ++ y :: post ∧
        DistanceCalculator.calculate sLoc y.location < m0 ∧
        (∀ p ∈ pre, DistanceCalculator.calculate sLoc y.location <
          DistanceCalculator.calculate sLoc p.location) ∧
        (∀ x ∈ ws, DistanceCalculator.calculate sLoc y.location ≤
          DistanceCalculator.calculate sLoc x.location) ∧
        nearestLoop sLoc (some w0, some m0) ws =
          (some y, some (DistanceCalculator.calculate sLoc y.location))) := by
  induction ws with
  | nil =>
    intro w0 m0
    left
    exact ⟨by simp, rfl⟩
  | cons x xs ih =>
    intro w0 m0
    by_cases hx : DistanceCalculator.calculate sLoc x.location < m0
    · have hstep : nearestLoop sLoc (some w0, some m0) (x :: xs) =
          nearestLoop sLoc
            (some x, some (DistanceCalculator.calculate sLoc x.location)) xs := by
        simp only [nearestLoop]
        rw [if_pos hx]
      rcases ih x (DistanceCalculator.calculate sLoc x.location) with
        ⟨hall, heq⟩ | ⟨pre, y, post, hsplit, hlt, hpre, hmin, heq⟩
      · right
        refine ⟨[], x, xs, rfl, hx, by simp, ?_, by rw [hstep, heq]⟩
        intro z hz
        rcases List.mem_cons.mp hz with rfl | hz'
        · exact le_refl _
        · exact hall z hz'
      · right
        refine ⟨x :: pre, y, post, by rw [hsplit]; rfl, lt_trans hlt hx, ?_, ?_,
          by rw [hstep, heq]⟩
        · intro p hp
          rcases List.mem_cons.mp hp with rfl | hp'
          · exact hlt
          · exact hpre p hp'
        · intro z hz
          rcases List.mem_cons.mp hz with rfl | hz'
          · exact le_of_lt hlt
          · exact hmin z (hsplit ▸ hz')
    · have hstep : nearestLoop sLoc (some w0, some m0) (x :: xs) =
          nearestLoop sLoc (some w0, some m0) xs := by
        simp only [nearestLoop]
        rw [if_neg hx]
      rcases ih w0 m0 with
        ⟨hall, heq⟩ | ⟨pre, y, post, hsplit, hlt, hpre, hmin, heq⟩
      · left
        refine ⟨?_, by rw [hstep, heq]⟩
        intro z hz
        rcases List.mem_cons.mp hz with rfl | hz'
        · exact not_lt.mp hx
        · exact hall z hz'
      · right
        refine ⟨x :: pre, y, post, by rw [hsplit]; rfl, hlt, ?_, ?_,
          by rw [hstep, heq]⟩
        · intro p hp
          rcases List.mem_cons.mp hp with rfl | hp'
          · exact lt_of_lt_of_le hlt (not_lt.mp hx)
          · exact hpre p hp'
        · intro z hz
          rcases List.mem_cons.mp hz with rfl | hz'
          · exact le_of_lt (lt_of_lt_of_le hlt (not_lt.mp hx))
          · exact hmin z (hsplit ▸ hz')

theorem find_nearest_err_seller (svc : WarehouseService) (seller_id : ℤ)
    (hsel : sellerGetById svc.seller_repo seller_id = none) :
    svc.find_nearest_warehouse seller_id = .error (.notFoundError
      ("Seller with ID " ++ toString seller_id ++ " not found")) := by
  simp only [WarehouseService.find_nearest_warehouse, hsel]

theorem find_nearest_err_empty (svc : WarehouseService) (seller_id : ℤ)
    (seller : Seller)
    (hsel : sellerGetById svc.seller_repo seller_id = some seller)
    (hemp : svc.warehouse_repo = []) :
    svc.find_nearest_warehouse seller_id =
      .error (.notFoundError "No warehouses available in the system") := by
  simp only [WarehouseService.find_nearest_warehouse, hsel, hemp]

theorem find_nearest_succ (svc : WarehouseService) (seller_id : ℤ)
    (seller : Seller)
    (hsel : sellerGetById svc.seller_repo seller_id = some seller)
    (hne : svc.warehouse_repo ≠ []) :
    ∃ w pre post,
      svc.find_nearest_warehouse seller_id =
        .ok (some w, some (DistanceCalculator.calculate seller.location w.location)) ∧
      svc.warehouse_repo = pre ++ w :: post ∧
      (∀ w' ∈ svc.warehouse_repo,
        DistanceCalculator.calculate seller.location w.location ≤
          DistanceCalculator.calculate seller.location w'.location) ∧
      (∀ p ∈ pre,
        DistanceCalculator.calculate seller.location w.location <
          DistanceCalculator.calculate seller.location p.location) := by
  obtain ⟨w1, rest, hrepo⟩ : ∃ w1 rest, svc.warehouse_repo = w1 :: rest := by
    cases h : svc.warehouse_repo with
    | nil => exact absurd h hne
    | cons a b => exact ⟨a, b, rfl⟩
  have hbody : svc.find_nearest_warehouse seller_id =
      .ok (nearestLoop seller.location (none, none) (w1 :: rest)) := by
    simp only [WarehouseService.find_nearest_warehouse, hsel, hrepo]
  have hfirst : nearestLoop seller.location (none, none) (w1 :: rest) =
      nearestLoop seller.location
        (some w1, some (DistanceCalculator.calculate seller.location w1.location))
        rest := by
    simp only [nearestLoop]
  rcases nearestLoop_go seller.location rest w1
      (DistanceCalculator.calculate seller.location w1.location) with
    ⟨hall, heq⟩ | ⟨pre, y, post, hsplit, hlt, hpre, hmin, heq⟩
  · refine ⟨w1, [], rest, ?_, by simpa using hrepo, ?_, by simp⟩
    · rw [hbody, hfirst, heq]
    · intro z hz
      rw [hrepo] at hz
      rcases List.mem_cons.mp hz with rfl | hz'
      · exact le_refl _
      · exact hall z hz'
  · refine ⟨y, w1 :: pre, post, ?_, by rw [hrepo, hsplit]; rfl, ?_, ?_⟩
    · rw [hbody, hfirst, heq]
    · intro z hz
      rw [hrepo] at hz
      rcases List.mem_cons.mp hz with rfl | hz'
      · exact le_of_lt hlt
      · exact hmin z (hsplit ▸ hz')
    · intro p hp
      rcases List.mem_cons.mp hp with rfl | hp'
      · exact hlt
      · exact hpre p hp'

/-- C4: `find_nearest_warehouse` fails with a not-found error when the
seller is absent or the warehouse collection is empty; otherwise it returns
the warehouse at minimal distance from the seller together with that
distance, and among equidistant warehouses the first in iteration order wins
(every earlier warehouse is strictly farther). -/
theorem claim_C4 (svc : WarehouseService) (seller_id : ℤ) :
    (sellerGetById svc.seller_repo seller_id = none →
      svc.find_nearest_warehouse seller_id = .error (.notFoundError
        ("Seller with ID " ++ toString seller_id ++ " not found"))) ∧
    (∀ seller, sellerGetById svc.seller_repo seller_id = some seller →
      svc.warehouse_repo = [] →
      svc.find_nearest_warehouse seller_id =
        .error (.notFoundError "No warehouses available in the system")) ∧
    (∀ seller, sellerGetById svc.seller_repo seller_id = some seller →
      svc.warehouse_repo ≠ [] →
      ∃ w pre post,
        svc.find_nearest_warehouse seller_id = .ok (some w,
          some (DistanceCalculator.calculate seller.location w.location)) ∧
        svc.warehouse_repo = pre ++ w :: post ∧
        (∀ w' ∈ svc.warehouse_repo,
          DistanceCalculator.calculate seller.location w.location ≤
            DistanceCalculator.calculate seller.location w'.location) ∧
        (∀ p ∈ pre,
          DistanceCalculator.calculate seller.location w.location <
            DistanceCalculator.calculate seller.location p.location)) :=
  ⟨fun hsel => find_nearest_err_seller svc seller_id hsel,
   fun seller hsel hemp => find_nearest_err_empty svc seller_id seller hsel hemp,
   fun seller hsel hne => find_nearest_succ svc seller_id seller hsel hne⟩

/-- A second warehouse, also at the origin, to exercise the tie-break. -/
def whB : Warehouse := { warehouse_id := 2, location := origin, name := "B" }

def wsvcW : WarehouseService := { warehouse_repo := [wh0, whB], seller_repo := [seller0] }

theorem claim_C4_witness :
    sellerGetById wsvcW.seller_repo 1 = some seller0 ∧
    wsvcW.warehouse_repo ≠ [] ∧
    ∃ w pre post,
      wsvcW.find_nearest_warehouse 1 = .ok (some w,
        some (DistanceCalculator.calculate seller0.location w.location)) ∧
      wsvcW.warehouse_repo = pre ++ w :: post ∧
      (∀ w' ∈ wsvcW.warehouse_repo,
        DistanceCalculator.calculate seller0.location w.location ≤
          DistanceCalculator.calculate seller0.location w'.location) ∧
      (∀ p ∈ pre,
        DistanceCalculator.calculate seller0.location w.location <
          DistanceCalculator.calculate seller0.location p.location) :=
  ⟨rfl, by simp [wsvcW],
   (claim_C4 wsvcW 1).2.2 seller0 rfl (by simp [wsvcW])⟩

theorem find_nearest_ok_inv {svc : WarehouseService} {sid : ℤ} {nw : Warehouse}
    {dsw : Option ℝ}
    (h : svc.find_nearest_warehouse sid = .ok (some nw, dsw)) :
    nw ∈ svc.warehouse_repo := by
  simp only [WarehouseService.find_nearest_warehouse] at h
  split at h
  · exact absurd h (by simp)
  · rename_i seller hsel
    split at h
    · exact absurd h (by simp)
    · rename_i w1 rest hrepo
      simp only [Except.ok.injEq] at h
      have hfirst : nearestLoop seller.location (none, none) (w1 :: rest) =
          nearestLoop seller.location
            (some w1,
              some (DistanceCalculator.calculate seller.location w1.location))
            rest := by
        simp only [nearestLoop]
      rw [hfirst] at h
      rcases nearestLoop_go seller.location rest w1
          (DistanceCalculator.calculate seller.location w1.location) with
        ⟨_, heq⟩ | ⟨pre, y, post, hsplit, _, _, _, heq⟩
      · rw [heq] at h
        have h1 : some w1 = some nw := congrArg Prod.fst h
        rw [hrepo, ← Option.some.inj h1]
        exact List.mem_cons_self w1 rest
      · rw [heq] at h
        have h1 : some y = some nw := congrArg Prod.fst h
        rw [hrepo, ← Option.some.inj h1]
        exact List.mem_cons_of_mem w1 (by rw [hsplit]; simp)

theorem warehouseGetById_self {l : List Warehouse}
    (hids : (l.map Warehouse.warehouse_id).Nodup) {w : Warehouse} (hmem : w ∈ l) :
    warehouseGetById l w.warehouse_id = some w := by
  induction l with
  | nil => simp at hmem
  | cons a rest ih =>
    rcases List.mem_cons.mp hmem with rfl | hmem'
    · unfold warehouseGetById
      exact List.find?_cons_of_pos _ (by simp)
    · have hna : a.warehouse_id ∉ rest.map Warehouse.warehouse_id :=
        (List.nodup_cons.mp hids).1
      have hfalse : (a.warehouse_id == w.warehouse_id) = false := by
        simp only [beq_eq_false_iff_ne, ne_eq]
        intro hcontra
        exact hna (hcontra ▸ List.mem_map_of_mem Warehouse.warehouse_id hmem')
      unfold warehouseGetById
      simp only [List.find?_cons, hfalse]
      exact ih (List.nodup_cons.mp hids).2 hmem'

/-- C10: a successful `calculate_total` returns a result whose
`distance_km` (top level and in the breakdown) is the warehouse-to-customer
distance of the inner `calculate_from_warehouse` call, and whose every field
comes from that call and the selected warehouse only — the
seller-to-warehouse distance `dsw` is discarded.  The two hypotheses state
the wiring of the Python app: the warehouse service and the charge service
share one warehouse repository, whose ids (dict keys) are distinct. -/
theorem claim_C10 (svc : ShippingChargeService) (sid cid pid : ℤ)
    (speed : String) (res : TotalShippingResult)
    (hrepo : svc.warehouse_service.warehouse_repo = svc.warehouse_repo)
    (hids : (svc.warehouse_repo.map Warehouse.warehouse_id).Nodup)
    (h : calculate_total svc sid cid pid speed = .ok res) :
    ∃ nw dsw br customer,
      svc.warehouse_service.find_nearest_warehouse sid = .ok (some nw, dsw) ∧
      calculate_from_warehouse svc nw.warehouse_id cid pid speed = .ok br ∧
      customerGetById svc.customer_repo cid = some customer ∧
      res = { shipping_charge := br.shipping_charge, nearest_warehouse := nw,
              distance_km := br.distance_km, breakdown := br } ∧
      br.distance_km =
        DistanceCalculator.calculate nw.location customer.location := by
  simp only [calculate_total] at h
  split at h
  · exact absurd h (by simp)
  · rename_i product hprod
    split at h
    · exact absurd h (by simp)
    · exact absurd h (by simp)
    · rename_i nw dsw hfn
      split at h
      · exact absurd h (by simp)
      · rename_i br hcfw
        simp only [Except.ok.injEq] at h
        obtain ⟨sp, w, c, p, st, hval, hwid, hcid, hpid, hstr, hbr⟩ :=
          cfw_ok_elim hcfw
        have hmem : nw ∈ svc.warehouse_repo := by
          rw [← hrepo]
          exact find_nearest_ok_inv hfn
        have hw_self : warehouseGetById svc.warehouse_repo nw.warehouse_id =
            some nw := warehouseGetById_self hids hmem
        have hwnw : w = nw := Option.some.inj (hwid.symm.trans hw_self)
        subst hwnw
        refine ⟨w, dsw, br, c, hfn, hcfw, hcid, h.symm, ?_⟩
        rw [hbr]
        rfl

theorem ct_ok_intro (svc : ShippingChargeService) (sid cid pid : ℤ)
    (speed : String) (product : Product) (nw : Warehouse) (dsw : Option ℝ)
    (shipping_result : ShippingChargeResult)
    (hp : productGetById svc.product_repo pid = some product)
    (hfn : svc.warehouse_service.find_nearest_warehouse sid = .ok (some nw, dsw))
    (hcfw : calculate_from_warehouse svc nw.warehouse_id cid pid speed =
      .ok shipping_result) :
    calculate_total svc sid cid pid speed =
      .ok { shipping_charge := shipping_result.shipping_charge
            nearest_warehouse := nw
            distance_km := shipping_result.distance_km
            breakdown := shipping_result } := by
  simp only [calculate_total, hp, hfn, hcfw]

theorem fn_svc0 : wsvc0.find_nearest_warehouse 1 = .ok (some wh0, some 0) := by
  have hbody : wsvc0.find_nearest_warehouse 1 =
      .ok (some wh0,
        some (DistanceCalculator.calculate seller0.location wh0.location)) := rfl
  have hd : DistanceCalculator.calculate seller0.location wh0.location = 0 :=
    DistanceCalculator.calculate_self origin
  rw [hbody, hd]

theorem ct_svc0 : calculate_total svc0 1 1 1 "standard" =
    .ok { shipping_charge :=
            (calcFromWarehouseResult .standard wh0 cust0 prod0 MiniVanStrategy).shipping_charge
          nearest_warehouse := wh0
          distance_km :=
            (calcFromWarehouseResult .standard wh0 cust0 prod0 MiniVanStrategy).distance_km
          breakdown := calcFromWarehouseResult .standard wh0 cust0 prod0 MiniVanStrategy } :=
  ct_ok_intro svc0 1 1 1 "standard" prod0 wh0 (some 0) _ rfl fn_svc0
    cfw_svc0_standard

theorem claim_C10_witness :
    ∃ res, calculate_total svc0 1 1 1 "standard" = .ok res ∧
      svc0.warehouse_service.warehouse_repo = svc0.warehouse_repo ∧
      (svc0.warehouse_repo.map Warehouse.warehouse_id).Nodup ∧
      ∃ nw dsw br customer,
        svc0.warehouse_service.find_nearest_warehouse 1 = .ok (some nw, dsw) ∧
        calculate_from_warehouse svc0 nw.warehouse_id 1 1 "standard" = .ok br ∧
        customerGetById svc0.customer_repo 1 = some customer ∧
        res = { shipping_charge := br.shipping_charge, nearest_warehouse := nw,
                distance_km := br.distance_km, breakdown := br } ∧
        br.distance_km =
          DistanceCalculator.calculate nw.location customer.location :=
  ⟨_, ct_svc0, rfl, by simp [svc0, wh0],
    claim_C10 svc0 1 1 1 "standard" _ rfl (by simp [svc0, wh0]) ct_svc0⟩
